import Mathlib

/-!
Verification of `regtests/client/python/cli/command/catalogs.py` from the
ebyhr/polaris repository: the `CatalogsCommand` handler of the `polaris
catalogs` CLI.  The Python dataclass is embedded as a Lean structure; CLI
option strings use `""` for the Python falsy values (`None` / empty string),
lists use `[]` for falsy, and Python dicts are association lists with unique
keys in insertion order.  `validate` raising an exception is embedded as
`Except String Unit`; `execute` is embedded as a pure function from the
command and the catalog returned by `get_catalog` to the single API call the
method performs.
-/

/-- Modelled from the spec: `cli.constants.Subcommands` is not under `src/`
(only its importer `catalogs.py` is).  The spec lists the subcommands
CREATE/UPDATE/GET/LIST/DELETE; the CLI spells them lowercase
(`./polaris catalogs create ...` in the source docstring). -/
def Subcommands.CREATE : String := "create"

/-- Modelled from the spec: see `Subcommands.CREATE`. -/
def Subcommands.DELETE : String := "delete"

/-- Modelled from the spec: see `Subcommands.CREATE`. -/
def Subcommands.GET : String := "get"

/-- Modelled from the spec: see `Subcommands.CREATE`. -/
def Subcommands.LIST : String := "list"

/-- Modelled from the spec: see `Subcommands.CREATE`. -/
def Subcommands.UPDATE : String := "update"

/-- Modelled from the spec: `cli.constants.CatalogType` is not under `src/`.
The spec gives the catalog types INTERNAL | EXTERNAL; the source compares
`catalog_type == CatalogType.EXTERNAL.value` and interpolates the value into
the message `Missing required argument for EXTERNAL catalog`. -/
def CatalogType.INTERNAL : String := "INTERNAL"

/-- Modelled from the spec: see `CatalogType.INTERNAL`. -/
def CatalogType.EXTERNAL : String := "EXTERNAL"

/-- Modelled from the spec: `cli.constants.StorageType` is not under `src/`.
The source docstring shows `--storage-type s3` and the error messages name
the storage types lowercase (s3, azure, gcs); `.upper()` is applied when
building configs. -/
def StorageType.S3 : String := "s3"

/-- Modelled from the spec: see `StorageType.S3`. -/
def StorageType.AZURE : String := "azure"

/-- Modelled from the spec: see `StorageType.S3`. -/
def StorageType.GCS : String := "gcs"

/-- Python `str.upper()` applied to the ASCII option values this CLI
handles: uppercase each character. -/
def pyUpper (s : String) : String := ⟨s.data.map Char.toUpper⟩

/-- The `CatalogsCommand` dataclass.  Optional string options are `""` when
absent (Python truthiness); `properties` is the `Dict[str, StrictStr]` of
additional properties, as an insertion-ordered association list. -/
structure CatalogsCommand where
  catalogs_subcommand : String
  catalog_type : String
  remote_url : String
  default_base_location : String
  storage_type : String
  allowed_locations : List String
  role_arn : String
  external_id : String
  user_arn : String
  tenant_id : String
  multi_tenant_app_name : String
  consent_url : String
  service_account : String
  catalog_name : String
  properties : List (String × String)
deriving Repr, DecidableEq

/-- `CatalogsCommand._has_aws_storage_info`. -/
def CatalogsCommand.has_aws_storage_info (c : CatalogsCommand) : Bool :=
  c.role_arn != "" || c.external_id != "" || c.user_arn != ""

/-- `CatalogsCommand._has_azure_storage_info`. -/
def CatalogsCommand.has_azure_storage_info (c : CatalogsCommand) : Bool :=
  c.tenant_id != "" || c.multi_tenant_app_name != "" || c.consent_url != ""

/-- `CatalogsCommand._has_gcs_storage_info`. -/
def CatalogsCommand.has_gcs_storage_info (c : CatalogsCommand) : Bool :=
  c.service_account != ""

/-- The CREATE block of `CatalogsCommand.validate` (its first `if`). -/
def CatalogsCommand.validateCreateRule (c : CatalogsCommand) : Except String Unit := do
  if c.catalogs_subcommand == Subcommands.CREATE then
    if c.storage_type == "" then
      throw "Missing required argument: --storage-type"
    if c.default_base_location == "" then
      throw "Missing required argument: --default-base-location"
    if c.catalog_type == CatalogType.EXTERNAL then
      if c.remote_url == "" then
        throw "Missing required argument for EXTERNAL catalog: --remote-url"

/-- The UPDATE block of `CatalogsCommand.validate` (its second `if`). -/
def CatalogsCommand.validateUpdateRule (c : CatalogsCommand) : Except String Unit := do
  if c.catalogs_subcommand == Subcommands.UPDATE then
    if !c.allowed_locations.isEmpty then
      if c.storage_type == "" then
        throw "Missing required argument when updating allowed locations for a catalog: --storage-type"

/-- The storage-type cross-check block of `CatalogsCommand.validate`
(its final `if`/`elif`/`elif` chain). -/
def CatalogsCommand.validateStorageRule (c : CatalogsCommand) : Except String Unit := do
  if c.storage_type == StorageType.S3 then
    if c.role_arn == "" then
      throw "Missing required argument for storage type 's3': --role-arn"
    if c.has_azure_storage_info || c.has_gcs_storage_info then
      throw "Storage type 's3' supports the storage configurations --role-arn, --external-id, and --user-arn"
  else if c.storage_type == StorageType.AZURE then
    if c.tenant_id == "" then
      throw "Missing required argument for storage type 'azure': --tenant-id"
    if c.has_aws_storage_info || c.has_gcs_storage_info then
      throw "Storage type 'azure' supports the storage configurations --tenant-id, --multi-tenant-app-name, and --consent-url"
  else if c.has_aws_storage_info || c.has_azure_storage_info then
    throw "Storage type 'gcs' supports the storage configuration: --service-account"

/-- `CatalogsCommand.validate`: the three blocks run in source order and the
first `raise` wins. -/
def CatalogsCommand.validate (c : CatalogsCommand) : Except String Unit := do
  c.validateCreateRule
  c.validateUpdateRule
  c.validateStorageRule

/-- The three `StorageConfigInfo` payload shapes built by
`_build_storage_config_info` (`AwsStorageConfigInfo`, `AzureStorageConfigInfo`,
`GcpStorageConfigInfo`). -/
inductive StorageConfigInfo where
  | AwsStorageConfigInfo (storage_type : String) (allowed_locations : List String)
      (role_arn : String) (external_id : String) (user_arn : String)
  | AzureStorageConfigInfo (storage_type : String) (allowed_locations : List String)
      (tenant_id : String) (multi_tenant_app_name : String) (consent_url : String)
  | GcpStorageConfigInfo (storage_type : String) (allowed_locations : List String)
      (tenant_id : String) (multi_tenant_app_name : String)
deriving Repr, DecidableEq

/-- `CatalogsCommand._build_storage_config_info`: `None` becomes `none`. -/
def CatalogsCommand.build_storage_config_info (c : CatalogsCommand) :
    Option StorageConfigInfo :=
  if c.storage_type == StorageType.S3 then
    some (.AwsStorageConfigInfo (pyUpper c.storage_type) c.allowed_locations
      c.role_arn c.external_id c.user_arn)
  else if c.storage_type == StorageType.AZURE then
    some (.AzureStorageConfigInfo (pyUpper c.storage_type) c.allowed_locations
      c.tenant_id c.multi_tenant_app_name c.consent_url)
  else if c.storage_type == StorageType.GCS then
    some (.GcpStorageConfigInfo (pyUpper c.storage_type) c.allowed_locations
      c.tenant_id c.multi_tenant_app_name)
  else
    none

/-- Python dict assignment `d[k] = v` on an insertion-ordered association
list: an existing key keeps its position and gets the new value, a new key is
appended. -/
def dictInsert (d : List (String × String)) (k v : String) :
    List (String × String) :=
  if d.any (fun p => p.1 == k) then
    d.map (fun p => if p.1 == k then (k, v) else p)
  else
    d ++ [(k, v)]

/-- Python dict merge `\x7b**a, **b\x7d`: start from `a` and insert the
entries of `b` in order, later writers winning. -/
def dictMerge (a b : List (String × String)) : List (String × String) :=
  b.foldl (fun acc p => dictInsert acc p.1 p.2) a

/-- The `Catalog` model returned by `api.get_catalog`, restricted to the
fields `execute` reads or writes. -/
structure Catalog where
  name : String
  entity_version : Nat
  properties : List (String × String)
deriving Repr, DecidableEq

/-- The `CatalogProperties` model (`default_base_location` plus
`additional_properties`). -/
structure CatalogProperties where
  default_base_location : String
  additional_properties : List (String × String)
deriving Repr, DecidableEq

/-- The catalog payload of a `CreateCatalogRequest`: either an
`ExternalCatalog` (with `remote_url`) or a `PolarisCatalog`. -/
inductive CatalogPayload where
  | ExternalCatalog (type : String) (name : String)
      (storage_config_info : Option StorageConfigInfo) (remote_url : String)
      (properties : CatalogProperties)
  | PolarisCatalog (type : String) (name : String)
      (storage_config_info : Option StorageConfigInfo)
      (properties : CatalogProperties)
deriving Repr, DecidableEq

/-- `CreateCatalogRequest`. -/
structure CreateCatalogRequest where
  catalog : CatalogPayload
deriving Repr, DecidableEq

/-- `UpdateCatalogRequest`; `storage_config_info` defaults to `None` when the
source constructs the request without it. -/
structure UpdateCatalogRequest where
  current_entity_version : Nat
  catalog : Catalog
  storage_config_info : Option StorageConfigInfo
deriving Repr, DecidableEq

/-- The single remote API call (or print loop) that one `execute` invocation
performs, by subcommand. -/
inductive ApiAction where
  | create_catalog (request : CreateCatalogRequest)
  | delete_catalog (name : String)
  | print_catalog (name : String)
  | print_catalog_list
  | update_catalog (name : String) (request : UpdateCatalogRequest)
deriving Repr, DecidableEq

/-- `CatalogsCommand.execute`.  The API client is abstracted by the function
`get_catalog`, giving the catalog the service would return for a name (used
by the UPDATE branch; the GET branch only records which name is fetched and
printed).  The unsupported-subcommand `raise` is the `Except.error` case. -/
def CatalogsCommand.execute (c : CatalogsCommand) (get_catalog : String → Catalog) :
    Except String ApiAction :=
  if c.catalogs_subcommand == Subcommands.CREATE then
    let config := c.build_storage_config_info
    if c.catalog_type == CatalogType.EXTERNAL then
      .ok (.create_catalog ⟨.ExternalCatalog (pyUpper c.catalog_type) c.catalog_name
        config c.remote_url ⟨c.default_base_location, c.properties⟩⟩)
    else
      .ok (.create_catalog ⟨.PolarisCatalog (pyUpper c.catalog_type) c.catalog_name
        config ⟨c.default_base_location, c.properties⟩⟩)
  else if c.catalogs_subcommand == Subcommands.DELETE then
    .ok (.delete_catalog c.catalog_name)
  else if c.catalogs_subcommand == Subcommands.GET then
    .ok (.print_catalog c.catalog_name)
  else if c.catalogs_subcommand == Subcommands.LIST then
    .ok .print_catalog_list
  else if c.catalogs_subcommand == Subcommands.UPDATE then
    let fetched := get_catalog c.catalog_name
    let default_base_location_properties :=
      if c.default_base_location != "" then
        [("default-base-location", c.default_base_location)]
      else
        []
    let catalog :=
      { fetched with properties := dictMerge default_base_location_properties c.properties }
    let request : UpdateCatalogRequest :=
      if !c.allowed_locations.isEmpty || c.has_aws_storage_info
          || c.has_azure_storage_info || c.has_gcs_storage_info then
        ⟨catalog.entity_version, catalog, c.build_storage_config_info⟩
      else
        ⟨catalog.entity_version, catalog, none⟩
    .ok (.update_catalog c.catalog_name request)
  else
    .error (c.catalogs_subcommand ++ " is not supported in the CLI")

/-- A command with every option absent, used to state concrete witnesses. -/
def emptyCmd : CatalogsCommand :=
  { catalogs_subcommand := "", catalog_type := "", remote_url := "",
    default_base_location := "", storage_type := "", allowed_locations := [],
    role_arn := "", external_id := "", user_arn := "", tenant_id := "",
    multi_tenant_app_name := "", consent_url := "", service_account := "",
    catalog_name := "", properties := [] }

/-- A fixed fetched catalog, used to state concrete witnesses. -/
def sampleCatalog : Catalog :=
  { name := "c1", entity_version := 7, properties := [("a", "1")] }

/-- API stub returning `sampleCatalog` for every name, used in witnesses. -/
def sampleApi : String → Catalog := fun _ => sampleCatalog

/-- A second API stub with different catalog properties, used to witness that
the fetched properties do not influence the update request. -/
def otherApi : String → Catalog :=
  fun _ => { name := "c1", entity_version := 9, properties := [("z", "26")] }

/-- A GET invocation with only an AWS field populated (storage_type and
service_account both absent). -/
def c2cmd : CatalogsCommand :=
  { emptyCmd with
    catalogs_subcommand := Subcommands.GET
    role_arn := "arn:aws:iam::123456789012:role/r" }

/-- An UPDATE invocation carrying only a default base location and extra
properties. -/
def updCmd : CatalogsCommand :=
  { emptyCmd with
    catalogs_subcommand := Subcommands.UPDATE
    catalog_name := "c1"
    default_base_location := "loc"
    properties := [("default-base-location", "loc2"), ("b", "2")] }

/-- A CREATE invocation with every option absent. -/
def createCmd : CatalogsCommand :=
  { emptyCmd with catalogs_subcommand := Subcommands.CREATE }

/-- A LIST invocation with storage type s3 and no role ARN. -/
def s3Cmd : CatalogsCommand :=
  { emptyCmd with
    catalogs_subcommand := Subcommands.LIST
    storage_type := StorageType.S3 }

/-- A LIST invocation with storage type azure and no tenant id. -/
def azureCmd : CatalogsCommand :=
  { emptyCmd with
    catalogs_subcommand := Subcommands.LIST
    storage_type := StorageType.AZURE }

/-- A GET invocation with storage type gcs and both Azure-named fields and a
service account populated. -/
def gcsCmd : CatalogsCommand :=
  { emptyCmd with
    catalogs_subcommand := Subcommands.GET
    storage_type := StorageType.GCS
    tenant_id := "t"
    multi_tenant_app_name := "m"
    service_account := "sa" }

/-- A GET invocation with an unrecognized storage type. -/
def fileCmd : CatalogsCommand :=
  { emptyCmd with
    catalogs_subcommand := Subcommands.GET
    storage_type := "file" }

/-- The CREATE invocation of the spec's external-catalog scenario. -/
def extCmd : CatalogsCommand :=
  { emptyCmd with
    catalogs_subcommand := Subcommands.CREATE
    catalog_type := CatalogType.EXTERNAL
    catalog_name := "c1"
    storage_type := StorageType.S3
    default_base_location := "s3://b/p"
    remote_url := "https://x"
    role_arn := "arn:aws:iam::1:role/r" }

theorem except_throw_def (e : String) : (throw e : Except String Unit) = .error e := rfl

theorem validate_ok_iff (c : CatalogsCommand) :
    c.validate = .ok () ↔
      (c.validateCreateRule = .ok () ∧ c.validateUpdateRule = .ok () ∧
        c.validateStorageRule = .ok ()) := by
  unfold CatalogsCommand.validate
  rcases h1 : c.validateCreateRule with e | u
  · simp [Bind.bind, Except.bind, h1]
  · rcases h2 : c.validateUpdateRule with e | u'
    · simp [Bind.bind, Except.bind, h1, h2]
    · rcases h3 : c.validateStorageRule with e | u''
      · simp [Bind.bind, Except.bind, h1, h2, h3]
      · simp [Bind.bind, Except.bind, h1, h2, h3]

theorem validate_eq_of_createRule_error (c : CatalogsCommand) (e : String)
    (h : c.validateCreateRule = .error e) : c.validate = .error e := by
  unfold CatalogsCommand.validate
  simp [Bind.bind, Except.bind, h]

theorem validate_ne_ok_of_storageRule_error (c : CatalogsCommand) (e : String)
    (h : c.validateStorageRule = .error e) : c.validate ≠ .ok () := by
  intro hok
  have := (validate_ok_iff c).mp hok
  rw [h] at this
  exact absurd this.2.2 (by simp)

theorem execute_update_eq (c : CatalogsCommand) (g : String → Catalog)
    (hsub : c.catalogs_subcommand = Subcommands.UPDATE) :
    c.execute g = .ok (.update_catalog c.catalog_name
      { current_entity_version := (g c.catalog_name).entity_version,
        catalog := { g c.catalog_name with
          properties := dictMerge
            (if c.default_base_location != "" then
              [("default-base-location", c.default_base_location)]
            else []) c.properties },
        storage_config_info :=
          if !c.allowed_locations.isEmpty || c.has_aws_storage_info
              || c.has_azure_storage_info || c.has_gcs_storage_info then
            c.build_storage_config_info
          else none }) := by
  unfold CatalogsCommand.execute
  simp [hsub, Subcommands.UPDATE, Subcommands.CREATE, Subcommands.DELETE,
    Subcommands.GET, Subcommands.LIST]
  split <;> rfl

theorem fst_mem_of_mem_dictInsert (a : List (String × String)) (k v : String)
    (kv : String × String) (h : kv ∈ dictInsert a k v) :
    kv.1 ∈ a.map Prod.fst ∨ kv.1 = k := by
  unfold dictInsert at h
  split at h
  · rcases List.mem_map.mp h with ⟨p, hp, he⟩
    by_cases hpk : (p.1 == k) = true
    · rw [if_pos hpk] at he
      right
      rw [← he]
    · rw [if_neg hpk] at he
      left
      exact he ▸ List.mem_map_of_mem _ hp
  · rcases List.mem_append.mp h with h | h
    · left
      exact List.mem_map_of_mem _ h
    · right
      simp at h
      rw [h]

theorem fst_mem_of_mem_dictMerge (b a : List (String × String))
    (kv : String × String) (h : kv ∈ dictMerge a b) :
    kv.1 ∈ a.map Prod.fst ∨ kv.1 ∈ b.map Prod.fst := by
  induction b generalizing a with
  | nil =>
    left
    exact List.mem_map_of_mem _ h
  | cons p b ih =>
    have h' : kv ∈ dictMerge (dictInsert a p.1 p.2) b := h
    rcases ih (dictInsert a p.1 p.2) h' with h1 | h1
    · rcases List.mem_map.mp h1 with ⟨q, hq, he⟩
      rcases fst_mem_of_mem_dictInsert a p.1 p.2 q hq with h2 | h2
      · left
        exact he ▸ h2
      · right
        rw [← he, h2]
        exact List.mem_map_of_mem _ (List.mem_cons_self p b)
    · right
      rw [List.map_cons]
      exact List.mem_cons_of_mem _ h1

/-- Claim C1: for every UPDATE invocation, execute fetches the current
catalog via get_catalog(name) and sets the catalog properties sent to
update_catalog to the merge that starts from the default-base-location entry
(when provided, else empty) and overlays options.properties, the overlay
winning on key collision; with default_base_location = loc and properties
default-base-location = loc2, b = 2, the result is exactly those two
overlay entries. -/
theorem C1_update_property_merge (c : CatalogsCommand) (g : String → Catalog)
    (hsub : c.catalogs_subcommand = Subcommands.UPDATE) :
    (∃ req : UpdateCatalogRequest,
      c.execute g = .ok (.update_catalog c.catalog_name req) ∧
      req.catalog = { g c.catalog_name with
        properties := dictMerge
          (if c.default_base_location ≠ "" then
            [("default-base-location", c.default_base_location)]
          else []) c.properties }) ∧
    (c.default_base_location = "loc" →
      c.properties = [("default-base-location", "loc2"), ("b", "2")] →
      ∃ req : UpdateCatalogRequest,
        c.execute g = .ok (.update_catalog c.catalog_name req) ∧
        req.catalog.properties = [("default-base-location", "loc2"), ("b", "2")]) := by
  constructor
  · refine ⟨_, execute_update_eq c g hsub, ?_⟩
    by_cases hd : c.default_base_location = ""
    · simp [hd]
    · simp [hd]
  · intro h1 h2
    refine ⟨_, execute_update_eq c g hsub, ?_⟩
    simp only [h1, h2]
    rfl

/-- Witness for C1: the UPDATE command with default_base_location loc and
the two overlay properties produces exactly the overlay map. -/
theorem C1_witness :
    updCmd.catalogs_subcommand = Subcommands.UPDATE ∧
    updCmd.default_base_location = "loc" ∧
    ∃ req : UpdateCatalogRequest,
      updCmd.execute sampleApi = .ok (.update_catalog "c1" req) ∧
      req.catalog.properties = [("default-base-location", "loc2"), ("b", "2")] :=
  ⟨rfl, rfl, (C1_update_property_merge updCmd sampleApi rfl).2 rfl rfl⟩

/-- Claim C2, counterexample: with storage_type unset and service_account
unset but role_arn populated (subcommand GET, so no other rule applies),
validate does raise the gcs cross-check error, refuting the claim that such
invocations raise no cross-check error. -/
theorem C2_counterexample :
    c2cmd.storage_type = "" ∧ c2cmd.service_account = "" ∧
    c2cmd.role_arn ≠ "" ∧
    c2cmd.validate =
      .error "Storage type 'gcs' supports the storage configuration: --service-account" := by
  refine ⟨rfl, rfl, by decide, ?_⟩
  rfl

/-- Claim C2 (amended): the final otherwise branch of the cross-checks is
evaluated exactly when storage_type is neither s3 nor azure — whether or not
storage_type or any GCS-exclusive field is set — and it raises exactly when
some AWS or AZURE field is populated; for subcommands other than CREATE and
UPDATE, validate succeeds iff no AWS or AZURE field is populated. -/
theorem C2_otherwise_branch (c : CatalogsCommand)
    (h1 : c.storage_type ≠ StorageType.S3)
    (h2 : c.storage_type ≠ StorageType.AZURE) :
    (c.validateStorageRule =
      if c.has_aws_storage_info || c.has_azure_storage_info then
        .error "Storage type 'gcs' supports the storage configuration: --service-account"
      else .ok ()) ∧
    (c.catalogs_subcommand ≠ Subcommands.CREATE →
      c.catalogs_subcommand ≠ Subcommands.UPDATE →
      (c.validate = .ok () ↔
        (c.has_aws_storage_info || c.has_azure_storage_info) = false)) := by
  have hrule : c.validateStorageRule =
      if c.has_aws_storage_info || c.has_azure_storage_info then
        .error "Storage type 'gcs' supports the storage configuration: --service-account"
      else .ok () := by
    unfold CatalogsCommand.validateStorageRule
    by_cases hc : (c.has_aws_storage_info || c.has_azure_storage_info) = true
    · simp [h1, h2, hc, Bind.bind, Except.bind, Pure.pure, Except.pure,
        except_throw_def]
    · simp [h1, h2, hc, Bind.bind, Except.bind, Pure.pure, Except.pure,
        except_throw_def]
  refine ⟨hrule, ?_⟩
  intro hs1 hs2
  have hcr : c.validateCreateRule = .ok () := by
    unfold CatalogsCommand.validateCreateRule
    simp [hs1, Pure.pure, Except.pure]
  have hur : c.validateUpdateRule = .ok () := by
    unfold CatalogsCommand.validateUpdateRule
    simp [hs2, Pure.pure, Except.pure]
  rw [validate_ok_iff]
  by_cases hc : (c.has_aws_storage_info || c.has_azure_storage_info) = true
  · simp [hcr, hur, hrule, hc]
  · simp [hcr, hur, hrule, hc, eq_false_of_ne_true hc]

/-- Witness for C2 (amended), at the same GET invocation with only role_arn
populated: the otherwise branch raises the gcs cross-check error. -/
theorem C2_witness :
    c2cmd.storage_type ≠ StorageType.S3 ∧
    c2cmd.storage_type ≠ StorageType.AZURE ∧
    c2cmd.validateStorageRule =
      .error "Storage type 'gcs' supports the storage configuration: --service-account" :=
  ⟨by decide, by decide,
    ((C2_otherwise_branch c2cmd (by decide) (by decide)).1).trans rfl⟩

/-- Claim C3: for every CREATE invocation, validate fails when storage_type
is missing, fails when default_base_location is missing, fails additionally
when catalog_type is EXTERNAL and remote_url is missing; when those are
present, the CREATE rule raises no error. -/
theorem C3_create_required_arguments (c : CatalogsCommand)
    (hsub : c.catalogs_subcommand = Subcommands.CREATE) :
    (c.storage_type = "" →
      c.validate = .error "Missing required argument: --storage-type") ∧
    (c.storage_type ≠ "" → c.default_base_location = "" →
      c.validate = .error "Missing required argument: --default-base-location") ∧
    (c.storage_type ≠ "" → c.default_base_location ≠ "" →
      c.catalog_type = CatalogType.EXTERNAL → c.remote_url = "" →
      c.validate = .error "Missing required argument for EXTERNAL catalog: --remote-url") ∧
    (c.storage_type ≠ "" → c.default_base_location ≠ "" →
      (c.catalog_type = CatalogType.EXTERNAL → c.remote_url ≠ "") →
      c.validateCreateRule = .ok ()) := by
  refine ⟨?_, ?_, ?_, ?_⟩
  · intro h
    apply validate_eq_of_createRule_error
    unfold CatalogsCommand.validateCreateRule
    simp [hsub, h, Bind.bind, Except.bind, Pure.pure, Except.pure, except_throw_def]
  · intro h1 h2
    apply validate_eq_of_createRule_error
    unfold CatalogsCommand.validateCreateRule
    simp [hsub, h1, h2, Bind.bind, Except.bind, Pure.pure, Except.pure,
      except_throw_def]
  · intro h1 h2 h3 h4
    apply validate_eq_of_createRule_error
    unfold CatalogsCommand.validateCreateRule
    simp [hsub, h1, h2, h3, h4, Bind.bind, Except.bind, Pure.pure, Except.pure,
      except_throw_def]
  · intro h1 h2 h3
    unfold CatalogsCommand.validateCreateRule
    by_cases hext : c.catalog_type = CatalogType.EXTERNAL
    · have h4 := h3 hext
      simp [hsub, h1, h2, hext, h4, Bind.bind, Except.bind, Pure.pure,
        Except.pure, except_throw_def]
    · simp [hsub, h1, h2, hext, Bind.bind, Except.bind, Pure.pure, Except.pure,
        except_throw_def]

/-- Witness for C3: a bare CREATE invocation fails on the missing
storage type. -/
theorem C3_witness :
    createCmd.catalogs_subcommand = Subcommands.CREATE ∧
    createCmd.storage_type = "" ∧
    createCmd.validate = .error "Missing required argument: --storage-type" :=
  ⟨rfl, rfl, (C3_create_required_arguments createCmd rfl).1 rfl⟩

/-- Claim C4: with storage_type s3, validate fails when role_arn is absent
(and the missing-role_arn error is the one reported, regardless of the other
fields), and with role_arn present it fails when any of tenant_id,
multi_tenant_app_name, consent_url, or service_account is set. -/
theorem C4_s3_cross_checks (c : CatalogsCommand)
    (hst : c.storage_type = StorageType.S3) :
    (c.role_arn = "" →
      c.validateStorageRule =
        .error "Missing required argument for storage type 's3': --role-arn" ∧
      c.validate ≠ .ok ()) ∧
    (c.role_arn ≠ "" →
      (c.tenant_id ≠ "" ∨ c.multi_tenant_app_name ≠ "" ∨ c.consent_url ≠ "" ∨
        c.service_account ≠ "") →
      c.validateStorageRule =
        .error "Storage type 's3' supports the storage configurations --role-arn, --external-id, and --user-arn" ∧
      c.validate ≠ .ok ()) := by
  constructor
  · intro h
    have hrule : c.validateStorageRule =
        .error "Missing required argument for storage type 's3': --role-arn" := by
      unfold CatalogsCommand.validateStorageRule
      simp [hst, h, StorageType.S3, Bind.bind, Except.bind, Pure.pure,
        Except.pure, except_throw_def]
    exact ⟨hrule, validate_ne_ok_of_storageRule_error c _ hrule⟩
  · intro h1 h2
    have hcross : (c.has_azure_storage_info || c.has_gcs_storage_info) = true := by
      unfold CatalogsCommand.has_azure_storage_info CatalogsCommand.has_gcs_storage_info
      rcases h2 with h | h | h | h <;> simp [h]
    have hrule : c.validateStorageRule =
        .error "Storage type 's3' supports the storage configurations --role-arn, --external-id, and --user-arn" := by
      unfold CatalogsCommand.validateStorageRule
      simp [hst, h1, hcross, StorageType.S3, Bind.bind, Except.bind, Pure.pure,
        Except.pure, except_throw_def]
    exact ⟨hrule, validate_ne_ok_of_storageRule_error c _ hrule⟩

/-- Witness for C4: the s3 LIST invocation without role_arn fails on the
missing role ARN. -/
theorem C4_witness :
    s3Cmd.storage_type = StorageType.S3 ∧ s3Cmd.role_arn = "" ∧
    s3Cmd.validateStorageRule =
      .error "Missing required argument for storage type 's3': --role-arn" ∧
    s3Cmd.validate ≠ .ok () :=
  ⟨rfl, rfl, ((C4_s3_cross_checks s3Cmd rfl).1 rfl).1,
    ((C4_s3_cross_checks s3Cmd rfl).1 rfl).2⟩

/-- Claim C5: with storage_type azure, validate fails when tenant_id is
absent (and the missing-tenant_id error is the one reported, regardless of
the other fields), and with tenant_id present it fails when any of role_arn,
external_id, user_arn, or service_account is set. -/
theorem C5_azure_cross_checks (c : CatalogsCommand)
    (hst : c.storage_type = StorageType.AZURE) :
    (c.tenant_id = "" →
      c.validateStorageRule =
        .error "Missing required argument for storage type 'azure': --tenant-id" ∧
      c.validate ≠ .ok ()) ∧
    (c.tenant_id ≠ "" →
      (c.role_arn ≠ "" ∨ c.external_id ≠ "" ∨ c.user_arn ≠ "" ∨
        c.service_account ≠ "") →
      c.validateStorageRule =
        .error "Storage type 'azure' supports the storage configurations --tenant-id, --multi-tenant-app-name, and --consent-url" ∧
      c.validate ≠ .ok ()) := by
  constructor
  · intro h
    have hrule : c.validateStorageRule =
        .error "Missing required argument for storage type 'azure': --tenant-id" := by
      unfold CatalogsCommand.validateStorageRule
      simp [hst, h, StorageType.S3, StorageType.AZURE, Bind.bind, Except.bind,
        Pure.pure, Except.pure, except_throw_def]
    exact ⟨hrule, validate_ne_ok_of_storageRule_error c _ hrule⟩
  · intro h1 h2
    have hcross : (c.has_aws_storage_info || c.has_gcs_storage_info) = true := by
      unfold CatalogsCommand.has_aws_storage_info CatalogsCommand.has_gcs_storage_info
      rcases h2 with h | h | h | h <;> simp [h]
    have hrule : c.validateStorageRule =
        .error "Storage type 'azure' supports the storage configurations --tenant-id, --multi-tenant-app-name, and --consent-url" := by
      unfold CatalogsCommand.validateStorageRule
      simp [hst, h1, hcross, StorageType.S3, StorageType.AZURE, Bind.bind,
        Except.bind, Pure.pure, Except.pure, except_throw_def]
    exact ⟨hrule, validate_ne_ok_of_storageRule_error c _ hrule⟩

/-- Witness for C5: the azure LIST invocation without tenant_id fails on the
missing tenant id. -/
theorem C5_witness :
    azureCmd.storage_type = StorageType.AZURE ∧ azureCmd.tenant_id = "" ∧
    azureCmd.validateStorageRule =
      .error "Missing required argument for storage type 'azure': --tenant-id" ∧
    azureCmd.validate ≠ .ok () :=
  ⟨rfl, rfl, ((C5_azure_cross_checks azureCmd rfl).1 rfl).1,
    ((C5_azure_cross_checks azureCmd rfl).1 rfl).2⟩

/-- Claim C6: for every UPDATE invocation with no storage-related option
(allowed_locations, AWS, AZURE, or GCS field) the update request carries no
storage_config_info; with at least one such option it carries the freshly
built storage config; in both cases current_entity_version equals the
entity_version of the fetched catalog. -/
theorem C6_update_storage_config_and_version (c : CatalogsCommand)
    (g : String → Catalog)
    (hsub : c.catalogs_subcommand = Subcommands.UPDATE) :
    ∃ req : UpdateCatalogRequest,
      c.execute g = .ok (.update_catalog c.catalog_name req) ∧
      req.current_entity_version = (g c.catalog_name).entity_version ∧
      (c.allowed_locations = [] ∧ c.role_arn = "" ∧ c.external_id = "" ∧
        c.user_arn = "" ∧ c.tenant_id = "" ∧ c.multi_tenant_app_name = "" ∧
        c.consent_url = "" ∧ c.service_account = "" →
        req.storage_config_info = none) ∧
      ((c.allowed_locations ≠ [] ∨ c.role_arn ≠ "" ∨ c.external_id ≠ "" ∨
        c.user_arn ≠ "" ∨ c.tenant_id ≠ "" ∨ c.multi_tenant_app_name ≠ "" ∨
        c.consent_url ≠ "" ∨ c.service_account ≠ "") →
        req.storage_config_info = c.build_storage_config_info) := by
  refine ⟨_, execute_update_eq c g hsub, rfl, ?_, ?_⟩
  · rintro ⟨h1, h2, h3, h4, h5, h6, h7, h8⟩
    simp [h1, h2, h3, h4, h5, h6, h7, h8, CatalogsCommand.has_aws_storage_info,
      CatalogsCommand.has_azure_storage_info, CatalogsCommand.has_gcs_storage_info]
  · intro h
    have hcond : (!c.allowed_locations.isEmpty || c.has_aws_storage_info
        || c.has_azure_storage_info || c.has_gcs_storage_info) = true := by
      unfold CatalogsCommand.has_aws_storage_info CatalogsCommand.has_azure_storage_info
        CatalogsCommand.has_gcs_storage_info
      rcases h with h | h | h | h | h | h | h | h <;>
        simp [h, List.isEmpty_iff]
    simp [hcond]

/-- Witness for C6: the UPDATE invocation that only changes the default base
location yields a request with no storage config and the fetched entity
version. -/
theorem C6_witness :
    updCmd.catalogs_subcommand = Subcommands.UPDATE ∧
    ∃ req : UpdateCatalogRequest,
      updCmd.execute sampleApi = .ok (.update_catalog "c1" req) ∧
      req.current_entity_version = 7 ∧
      req.storage_config_info = none := by
  obtain ⟨req, hexec, hver, hnone, -⟩ :=
    C6_update_storage_config_and_version updCmd sampleApi rfl
  exact ⟨rfl, req, hexec, hver, hnone ⟨rfl, rfl, rfl, rfl, rfl, rfl, rfl, rfl⟩⟩

/-- Claim C7: with storage_type gcs, the built config is a
GcpStorageConfigInfo with type GCS, the allowed locations, and the tenant_id
and multi_tenant_app_name options; service_account does not appear and does
not influence the result. -/
theorem C7_gcs_config (c : CatalogsCommand)
    (hst : c.storage_type = StorageType.GCS) :
    c.build_storage_config_info =
      some (.GcpStorageConfigInfo "GCS" c.allowed_locations c.tenant_id
        c.multi_tenant_app_name) ∧
    ∀ s : String,
      ({ c with service_account := s } : CatalogsCommand).build_storage_config_info =
        c.build_storage_config_info := by
  constructor
  · unfold CatalogsCommand.build_storage_config_info
    simp [hst, StorageType.S3, StorageType.AZURE, StorageType.GCS]
    rfl
  · intro s
    unfold CatalogsCommand.build_storage_config_info
    simp [hst]

/-- Witness for C7: the gcs invocation with tenant_id t,
multi_tenant_app_name m and service_account sa builds the GCS config from t
and m, and changing the service account leaves the config unchanged. -/
theorem C7_witness :
    gcsCmd.storage_type = StorageType.GCS ∧
    gcsCmd.build_storage_config_info =
      some (.GcpStorageConfigInfo "GCS" [] "t" "m") ∧
    ({ gcsCmd with service_account := "other" } : CatalogsCommand).build_storage_config_info =
      gcsCmd.build_storage_config_info :=
  ⟨rfl, (C7_gcs_config gcsCmd rfl).1, (C7_gcs_config gcsCmd rfl).2 "other"⟩

/-- Claim C8: the storage-config builder is a pure function of the options
(structurally equal options give identical configs), and any storage_type
outside s3, azure, gcs — including unset — yields no config. -/
theorem C8_build_pure_and_default_none (c c' : CatalogsCommand) :
    (c = c' → c.build_storage_config_info = c'.build_storage_config_info) ∧
    (c.storage_type ≠ StorageType.S3 → c.storage_type ≠ StorageType.AZURE →
      c.storage_type ≠ StorageType.GCS → c.build_storage_config_info = none) := by
  constructor
  · intro h
    rw [h]
  · intro h1 h2 h3
    unfold CatalogsCommand.build_storage_config_info
    simp [h1, h2, h3]

/-- Witness for C8: an invocation with the unrecognized storage type file
builds no storage config. -/
theorem C8_witness :
    fileCmd.storage_type ≠ StorageType.S3 ∧
    fileCmd.storage_type ≠ StorageType.AZURE ∧
    fileCmd.storage_type ≠ StorageType.GCS ∧
    fileCmd.build_storage_config_info = none :=
  ⟨by decide, by decide, by decide,
    (C8_build_pure_and_default_none fileCmd fileCmd).2 (by decide) (by decide)
      (by decide)⟩

/-- Claim C9 (implicit): for every UPDATE invocation, the properties map sent
to update_catalog contains only keys originating from the options — the
default-base-location entry and the keys of options.properties — and is the
same whatever properties the fetched catalog had: the fetched map is
replaced wholesale, not merged into. -/
theorem C9_update_properties_replaced (c : CatalogsCommand)
    (g g' : String → Catalog)
    (hsub : c.catalogs_subcommand = Subcommands.UPDATE) :
    ∃ req req' : UpdateCatalogRequest,
      c.execute g = .ok (.update_catalog c.catalog_name req) ∧
      c.execute g' = .ok (.update_catalog c.catalog_name req') ∧
      req.catalog.properties = req'.catalog.properties ∧
      ∀ kv ∈ req.catalog.properties,
        kv.1 = "default-base-location" ∨ kv.1 ∈ c.properties.map Prod.fst := by
  refine ⟨_, _, execute_update_eq c g hsub, execute_update_eq c g' hsub, rfl, ?_⟩
  intro kv hkv
  rcases fst_mem_of_mem_dictMerge _ _ kv hkv with h | h
  · left
    by_cases hd : c.default_base_location != ""
    · rw [if_pos hd] at h
      simpa using h
    · rw [if_neg hd] at h
      simp at h
  · right
    exact h

/-- Witness for C9: the UPDATE invocation produces the same properties map
whether the fetched catalog had properties a = 1 or z = 26, and every key of
that map comes from the options. -/
theorem C9_witness :
    updCmd.catalogs_subcommand = Subcommands.UPDATE ∧
    ∃ req req' : UpdateCatalogRequest,
      updCmd.execute sampleApi = .ok (.update_catalog "c1" req) ∧
      updCmd.execute otherApi = .ok (.update_catalog "c1" req') ∧
      req.catalog.properties = req'.catalog.properties ∧
      ∀ kv ∈ req.catalog.properties,
        kv.1 = "default-base-location" ∨ kv.1 ∈ updCmd.properties.map Prod.fst :=
  ⟨rfl, C9_update_properties_replaced updCmd sampleApi otherApi rfl⟩

/-- Claim C10 (implicit): the CREATE branch of execute builds an
ExternalCatalog request (carrying remote_url) exactly when catalog_type is
EXTERNAL; any other catalog_type yields a PolarisCatalog request with the
same name, storage config and properties and no remote_url, and in both
shapes the type field is the uppercased catalog_type. -/
theorem C10_create_request_shape (c : CatalogsCommand) (g : String → Catalog)
    (hsub : c.catalogs_subcommand = Subcommands.CREATE) :
    (c.catalog_type = CatalogType.EXTERNAL →
      c.execute g = .ok (.create_catalog ⟨.ExternalCatalog (pyUpper c.catalog_type)
        c.catalog_name c.build_storage_config_info c.remote_url
        ⟨c.default_base_location, c.properties⟩⟩)) ∧
    (c.catalog_type ≠ CatalogType.EXTERNAL →
      c.execute g = .ok (.create_catalog ⟨.PolarisCatalog (pyUpper c.catalog_type)
        c.catalog_name c.build_storage_config_info
        ⟨c.default_base_location, c.properties⟩⟩)) := by
  constructor
  · intro hext
    unfold CatalogsCommand.execute
    simp [hsub, hext]
  · intro hext
    unfold CatalogsCommand.execute
    simp [hsub, hext]

/-- Witness for C10: the spec's external-catalog CREATE scenario produces an
ExternalCatalog request with type EXTERNAL, the remote URL, and the AWS
storage config built from the role ARN. -/
theorem C10_witness :
    extCmd.catalogs_subcommand = Subcommands.CREATE ∧
    extCmd.catalog_type = CatalogType.EXTERNAL ∧
    extCmd.execute sampleApi = .ok (.create_catalog
      ⟨.ExternalCatalog "EXTERNAL" "c1"
        (some (.AwsStorageConfigInfo "S3" [] "arn:aws:iam::1:role/r" "" ""))
        "https://x" ⟨"s3://b/p", []⟩⟩) :=
  ⟨rfl, rfl, ((C10_create_request_shape extCmd sampleApi rfl).1 rfl).trans rfl⟩
